import Mathlib

/-!
Verification development for the quota-tracker core (`src/core.py`).

The Python core is shallowly embedded: the SQLite tables become lists of
records inside a `State` structure, every repository method becomes a pure
function on `State` (fallible methods return `Except QErr State`), and
`datetime.now()` becomes an explicit `now : String` argument.  Python's
`str.strip()` is modelled on character lists, and SQLite's
`ORDER BY item_id` (binary collation on text) is modelled by sorting with a
lexicographic comparison on characters.
-/

namespace Quota

/-- Characters removed by Python's `str.strip()` (ASCII whitespace). -/
def isPyWS (c : Char) : Bool :=
  c = ' ' || c = '\t' || c = '\n' || c = '\r' || c = '\x0b' || c = '\x0c'

/-- Strip leading and trailing whitespace from a character list. -/
def stripChars (l : List Char) : List Char :=
  ((l.dropWhile isPyWS).reverse.dropWhile isPyWS).reverse

/-- Model of Python's `str.strip()`. -/
def pyStrip (s : String) : String := ⟨stripChars s.data⟩

/-- Lexicographic `≤` on character lists; models SQLite's binary text
ordering used by `ORDER BY item_id`. -/
def lexLe : List Char → List Char → Bool
  | [], _ => true
  | _ :: _, [] => false
  | a :: as, b :: bs => if a < b then true else if a = b then lexLe as bs else false

/-- Lexicographic `≤` on strings. -/
def strLe (a b : String) : Bool := lexLe a.data b.data

/-- A sub-item dictionary inside a template item.  Fields are `Option`
because the Python dicts may lack the corresponding keys. -/
structure SubItem where
  id : Option String
  text : Option String
  importance : Option Int
deriving DecidableEq

/-- A top-level template item dictionary (`{id, text, importance, subitems}`);
absent keys are `none`. -/
structure TItem where
  id : Option String
  text : Option String
  importance : Option Int
  subitems : Option (List SubItem)
deriving DecidableEq

/-- `DEFAULT_TEMPLATE` from `core.py`. -/
def DEFAULT_TEMPLATE : List TItem :=
  [ ⟨some "progress", some "Progress: move a project forward", some 3, some []⟩,
    ⟨some "care", some "Care/Connection: serve or connect", some 2, some []⟩,
    ⟨some "maintenance", some "Maintenance: body / admin / environment", some 2, some []⟩ ]

/-- Contents of the singleton `template` table row: either no row at all,
a row whose text fails `json.loads` or is not a JSON list (`badData`), or a
row holding a parsed list of item dictionaries. -/
inductive TemplateCell where
  | noRow : TemplateCell
  | badData : TemplateCell
  | stored : List TItem → TemplateCell
deriving DecidableEq

/-- One flattened checklist line produced by `TemplateRepository.flatten`. -/
structure FlatLine where
  item_id : String
  item_text : String
  importance : Int
deriving DecidableEq

/-- Python `str(item.get("id"))`: a missing key yields `None`, rendered
`"None"`. -/
def pyStrOfOptId : Option String → String
  | none => "None"
  | some s => s

/-- The flattened line of a top-level item. -/
def topLine (item : TItem) : FlatLine :=
  let base_id := pyStrOfOptId item.id
  { item_id := base_id,
    item_text := item.text.getD base_id,
    importance := item.importance.getD 1 }

/-- The flattened line of a sub-item; `flatLen` is `len(flat)` at the moment
the sub-item is processed (the default id in `sub.get('id', len(flat))`). -/
def subLine (item : TItem) (base_id : String) (flatLen : Nat) (sub : SubItem) : FlatLine :=
  let sub_id := base_id ++ ":" ++ (match sub.id with
    | some s => s
    | none => toString flatLen)
  { item_id := sub_id,
    item_text := sub.text.getD sub_id,
    importance := sub.importance.getD (item.importance.getD 1) }

/-- The inner `for sub in item.get("subitems", []) or []` loop of `flatten`,
carrying the accumulated `flat` list. -/
def flattenSubs (item : TItem) (base_id : String) :
    List SubItem → List FlatLine → List FlatLine
  | [], flat => flat
  | sub :: rest, flat =>
      flattenSubs item base_id rest (flat ++ [subLine item base_id flat.length sub])

/-- The outer loop of `flatten`, carrying the accumulated `flat` list. -/
def flattenAux : List TItem → List FlatLine → List FlatLine
  | [], flat => flat
  | item :: rest, flat =>
      flattenAux rest
        (flattenSubs item (pyStrOfOptId item.id) (item.subitems.getD [])
          (flat ++ [topLine item]))

/-- `TemplateRepository.flatten`. -/
def flatten (template_data : List TItem) : List FlatLine :=
  flattenAux template_data []

/-- The acceptance condition of `TemplateRepository._validate_template`:
every element carries both an `id` and a `text` key.  (The `isinstance`
checks are discharged by the types of the embedding.) -/
def validateOk (template_data : List TItem) : Bool :=
  template_data.all (fun item => item.id.isSome && item.text.isSome)

/-- The `setdefault` side of `_validate_template`: fill `importance = 1`
and `subitems = []` on a top-level item when absent. -/
def fillDefaults (item : TItem) : TItem :=
  { item with
    importance := some (item.importance.getD 1),
    subitems := some (item.subitems.getD []) }

/-- Whether every sub-item of every item carries its own `id` key (so no
sub-item falls back to the positional `len(flat)` default id). -/
def subIdsPresent (template_data : List TItem) : Bool :=
  template_data.all (fun item => (item.subitems.getD []).all (fun sub => sub.id.isSome))

/-- One `day_item` row. -/
structure DayItemRow where
  day : String
  item_id : String
  item_text : String
  importance : Int
  checked : Bool
  evidence : String
  why : String
  checked_at : Option String
deriving DecidableEq

/-- One `day_status` row. -/
structure DayStatusRow where
  day : String
  closed : Bool
  closed_at : Option String
deriving DecidableEq

/-- The whole persistent store: the `template`, `day_item` and `day_status`
tables. -/
structure State where
  template : TemplateCell
  day_item : List DayItemRow
  day_status : List DayStatusRow
deriving DecidableEq

/-- The exceptions the core raises: every one is a Python `ValueError`
carrying a message. -/
inductive QErr where
  | valueError : String → QErr
deriving DecidableEq

/-- `ValueError("Evidence is required")` — the spec's missing-evidence
`ValidationError`. -/
def evidenceRequiredError : QErr := .valueError "Evidence is required"

/-- `ValueError("Day is closed. Reopen to edit.")` — the spec's
`DayClosedError`. -/
def dayClosedError : QErr := .valueError "Day is closed. Reopen to edit."

instance : DecidableEq (Except QErr State) := fun a b =>
  match a, b with
  | .ok x, .ok y =>
      if h : x = y then isTrue (by rw [h]) else isFalse (by intro hc; cases hc; exact h rfl)
  | .error x, .error y =>
      if h : x = y then isTrue (by rw [h]) else isFalse (by intro hc; cases hc; exact h rfl)
  | .ok _, .error _ => isFalse (by intro hc; cases hc)
  | .error _, .ok _ => isFalse (by intro hc; cases hc)

/-- The state a caller observes after a fallible operation: the new state on
success, the unchanged old state when the operation raised. -/
def stateAfter (s : State) : Except QErr State → State
  | .ok s2 => s2
  | .error _ => s

/-- `TemplateRepository.load`: the stored list when the row parses to a
list, the built-in default otherwise.  Total — it never raises. -/
def template_load (s : State) : List TItem :=
  match s.template with
  | .stored data => data
  | _ => DEFAULT_TEMPLATE

/-- `TemplateRepository.ensure_default`: insert the default template iff the
`template` table has no row. -/
def ensure_default (s : State) : State :=
  match s.template with
  | .noRow => { s with template := .stored DEFAULT_TEMPLATE }
  | _ => s

/-- `TemplateRepository.save`: validate (raising `ValueError` on a malformed
element), fill defaults in place, then `UPDATE template SET data WHERE id=1`
— which writes nothing when no row exists. -/
def template_save (s : State) (template_data : List TItem) : Except QErr State :=
  if validateOk template_data then
    match s.template with
    | .noRow => .ok s
    | _ => .ok { s with template := .stored (template_data.map fillDefaults) }
  else .error (.valueError "Each item must have id and text")

/-- `DayRepository.is_day_closed`: absence of a `day_status` row means
open. -/
def is_day_closed (s : State) (day : String) : Bool :=
  match s.day_status.find? (fun r => decide (r.day = day)) with
  | some r => r.closed
  | none => false

/-- `INSERT ... ON CONFLICT(day) DO UPDATE` on `day_status`. -/
def upsertStatus (rows : List DayStatusRow) (newRow : DayStatusRow) : List DayStatusRow :=
  if rows.any (fun r => decide (r.day = newRow.day)) then
    rows.map (fun r => if r.day = newRow.day then newRow else r)
  else rows ++ [newRow]

/-- `DayRepository.set_day_closed`: upsert the `day_status` row; closing
stamps `closed_at := now`, reopening clears it. -/
def set_day_closed (s : State) (day : String) (closed : Bool) (now : String) : State :=
  { s with day_status := upsertStatus s.day_status (if closed then ⟨day, true, some now⟩ else ⟨day, false, none⟩) }

/-- Whether `rows` already holds a row with `r`'s `(day, item_id)` primary
key. -/
def keyMem (rows : List DayItemRow) (r : DayItemRow) : Bool :=
  rows.any (fun x => decide (x.day = r.day) && decide (x.item_id = r.item_id))

/-- `INSERT OR IGNORE` of one `day_item` row: dropped when a row with the
same `(day, item_id)` key already exists. -/
def insertOrIgnore (rows : List DayItemRow) (r : DayItemRow) : List DayItemRow :=
  if keyMem rows r then rows else rows ++ [r]

/-- The fresh `day_item` row inserted for one flattened line:
`checked = 0`, empty evidence and why, `NULL checked_at`. -/
def rowOfLine (day : String) (l : FlatLine) : DayItemRow :=
  ⟨day, l.item_id, l.item_text, l.importance, false, "", "", none⟩

/-- `DayRepository.instantiate_day_if_needed`. -/
def instantiate_day_if_needed (s : State) (day : String) : State :=
  if s.day_item.any (fun r => decide (r.day = day)) then s
  else
    { s with day_item :=
        ((flatten (template_load s)).map (rowOfLine day)).foldl insertOrIgnore s.day_item }

/-- `DayRepository.get_day_items`: instantiate if needed, then select the
day's rows ordered by `item_id`. -/
def get_day_items (s : State) (day : String) : List DayItemRow × State :=
  let s2 := instantiate_day_if_needed s day
  (List.insertionSort (fun a b => strLe a.item_id b.item_id = true)
      (s2.day_item.filter (fun r => decide (r.day = day))), s2)

/-- `DayRepository.set_item_checked`: evidence check, then closed-day check,
then the keyed `UPDATE` (which touches nothing when no row matches). -/
def set_item_checked (s : State) (day item_id : String) (checked : Bool)
    (evidence why now : String) : Except QErr State :=
  if checked = true ∧ pyStrip evidence = "" then .error evidenceRequiredError
  else if is_day_closed s day then .error dayClosedError
  else .ok { s with day_item := s.day_item.map (fun r =>
      if r.day = day ∧ r.item_id = item_id then
        { r with
          checked := checked,
          evidence := pyStrip evidence,
          why := pyStrip why,
          checked_at := if checked then some now else none }
      else r) }

/-- `QuotaService.initialize` (schema creation is a no-op in the
embedding). -/
def startup (s : State) : State := ensure_default s

/-- `QuotaService.get_day`: items plus the closed flag, together with the
state after instantiation. -/
def get_day (s : State) (day : String) : (List DayItemRow × Bool) × State :=
  let p := get_day_items s day
  ((p.1, is_day_closed p.2 day), p.2)

/-- `QuotaService.mark_item`. -/
def mark_item (s : State) (day item_id : String) (checked : Bool)
    (evidence why now : String) : Except QErr State :=
  set_item_checked s day item_id checked evidence why now

/-- `QuotaService.close_day`. -/
def close_day (s : State) (day now : String) : State :=
  set_day_closed s day true now

/-- `QuotaService.reopen_day` (no timestamp is taken when reopening). -/
def reopen_day (s : State) (day : String) : State :=
  set_day_closed s day false ""

/-- `QuotaService.load_template`. -/
def load_template (s : State) : List TItem := template_load s

/-- `QuotaService.save_template`. -/
def save_template (s : State) (template_data : List TItem) : Except QErr State :=
  template_save s template_data

/-- The template of the spec's sub-item scenario:
`[{"id":"a","text":"A","subitems":[{"id":"1","text":"A1"}]}]`. -/
def exTemplate : List TItem :=
  [⟨some "a", some "A", none, some [⟨some "1", some "A1", none⟩]⟩]

/-- A fresh store whose `template` row holds the default template. -/
def baseState : State := ⟨.stored DEFAULT_TEMPLATE, [], []⟩

/-- `baseState` after instantiating the day `2024-01-01`. -/
def day1State : State := (get_day_items (startup baseState) "2024-01-01").2

/-- `day1State` with the day `2024-01-01` closed. -/
def closedState : State := close_day day1State "2024-01-01" "2024-01-01T20:00:00"

/-- A template that validates but whose two items share the id `"a"`. -/
def dupTemplate : List TItem :=
  [⟨some "a", some "A", some 1, some []⟩, ⟨some "a", some "B", some 1, some []⟩]

/-- A fresh store whose `template` row holds `dupTemplate`. -/
def dupState : State := ⟨.stored dupTemplate, [], []⟩

/-- A single well-formed item with `importance` and `subitems` absent. -/
def itemA : TItem := ⟨some "a", some "A", none, none⟩

/-- A store whose `template` table has no row at all. -/
def noRowState : State := ⟨.noRow, [], []⟩

/-- A store whose `template` row holds the single item `itemA`. -/
def storedOneState : State := ⟨.stored [itemA], [], []⟩

/-- The per-row invariant of §3 of the spec: a checked row has non-blank
evidence and a timestamp; an unchecked row has no timestamp. -/
def rowInvariant (r : DayItemRow) : Prop :=
  (r.checked = true → pyStrip r.evidence ≠ "" ∧ r.checked_at.isSome = true) ∧
  (r.checked = false → r.checked_at = none)

instance (r : DayItemRow) : Decidable (rowInvariant r) := by
  unfold rowInvariant; infer_instance

/-- The invariant over every stored `day_item` row. -/
def stateInvariant (s : State) : Prop := ∀ r ∈ s.day_item, rowInvariant r

instance (s : State) : Decidable (stateInvariant s) := by
  unfold stateInvariant; infer_instance

/-! ### Helper lemmas: `pyStrip` -/

theorem dropWhile_self {α : Type} (p : α → Bool) (l : List α) :
    (l.dropWhile p).dropWhile p = l.dropWhile p := by
  induction l with
  | nil => rfl
  | cons c t ih =>
    by_cases h : p c = true
    · simp [List.dropWhile_cons, h, ih]
    · simp [List.dropWhile_cons, h]

theorem dropWhile_eq_cons {α : Type} (p : α → Bool) (l : List α) (x : α) (xs : List α)
    (h : l.dropWhile p = x :: xs) : p x = false := by
  induction l with
  | nil => simp [List.dropWhile] at h
  | cons c t ih =>
    by_cases hc : p c = true
    · exact ih (by simpa [List.dropWhile_cons, hc] using h)
    · rw [List.dropWhile_cons, if_neg hc] at h
      cases h
      exact Bool.eq_false_iff.mpr hc

theorem stripChars_idem (l : List Char) : stripChars (stripChars l) = stripChars l := by
  unfold stripChars
  set a := l.dropWhile isPyWS with ha
  set c := a.reverse.dropWhile isPyWS with hc
  have hsuf : ∃ t, t ++ c = a.reverse := List.dropWhile_suffix isPyWS
  obtain ⟨t, ht⟩ := hsuf
  have hrev : a = c.reverse ++ t.reverse := by
    have := congrArg List.reverse ht
    simpa [List.reverse_append] using this.symm
  have step1 : c.reverse.dropWhile isPyWS = c.reverse := by
    cases hcr : c.reverse with
    | nil => rfl
    | cons x rest =>
      have hx : isPyWS x = false := by
        apply dropWhile_eq_cons isPyWS l x (rest ++ t.reverse)
        rw [← ha, hrev, hcr]
        rfl
      rw [List.dropWhile_cons, if_neg (by simp [hx])]
  rw [step1, List.reverse_reverse, hc, dropWhile_self]

theorem pyStrip_idem (s : String) : pyStrip (pyStrip s) = pyStrip s := by
  unfold pyStrip
  exact congrArg String.mk (stripChars_idem s.data)

/-! ### Helper lemmas: `lexLe` -/

theorem lexLe_total : ∀ a b : List Char, lexLe a b = true ∨ lexLe b a = true := by
  intro a
  induction a with
  | nil => intro b; left; rfl
  | cons x xs ih =>
    intro b
    cases b with
    | nil => right; rfl
    | cons y ys =>
      rcases lt_trichotomy x y with h | h | h
      · left; simp [lexLe, h]
      · subst h
        rcases ih ys with h2 | h2
        · left; simp [lexLe, h2]
        · right; simp [lexLe, h2]
      · right; simp [lexLe, h]

theorem lexLe_trans : ∀ a b c : List Char,
    lexLe a b = true → lexLe b c = true → lexLe a c = true := by
  intro a
  induction a with
  | nil => intro b c _ _; rfl
  | cons x xs ih =>
    intro b c hab hbc
    cases b with
    | nil => simp [lexLe] at hab
    | cons y ys =>
      cases c with
      | nil => simp [lexLe] at hbc
      | cons z zs =>
        simp only [lexLe] at hab hbc ⊢
        by_cases hxy : x < y
        · by_cases hyz : y < z
          · simp [lt_trans hxy hyz]
          · by_cases hyz2 : y = z
            · subst hyz2; simp [hxy]
            · simp [hyz, hyz2] at hbc
        · by_cases hxy2 : x = y
          · subst hxy2
            by_cases hyz : x < z
            · simp [hyz]
            · by_cases hyz2 : x = z
              · subst hyz2
                simp only [if_neg hyz, if_pos rfl] at hab hbc ⊢
                exact ih ys zs hab hbc
              · simp [hyz, hyz2] at hbc
          · simp [hxy, hxy2] at hab

theorem strLe_total (a b : String) : strLe a b = true ∨ strLe b a = true :=
  lexLe_total a.data b.data

theorem strLe_trans (a b c : String) (h1 : strLe a b = true) (h2 : strLe b c = true) :
    strLe a c = true :=
  lexLe_trans a.data b.data c.data h1 h2

/-! ### Helper lemmas: `insertOrIgnore` / `foldl` -/

theorem keyMem_insertOrIgnore_self (rows : List DayItemRow) (r : DayItemRow) :
    keyMem (insertOrIgnore rows r) r = true := by
  unfold insertOrIgnore
  by_cases h : keyMem rows r = true
  · rw [if_pos h]; exact h
  · rw [if_neg h]
    unfold keyMem
    simp [List.any_append]

theorem keyMem_insertOrIgnore_mono (rows : List DayItemRow) (r x : DayItemRow)
    (h : keyMem rows x = true) : keyMem (insertOrIgnore rows r) x = true := by
  unfold insertOrIgnore
  by_cases hk : keyMem rows r = true
  · rw [if_pos hk]; exact h
  · rw [if_neg hk]
    unfold keyMem at h ⊢
    simp [List.any_append, h]

theorem keyMem_foldl_mono (l : List DayItemRow) (rows : List DayItemRow) (x : DayItemRow)
    (h : keyMem rows x = true) : keyMem (l.foldl insertOrIgnore rows) x = true := by
  induction l generalizing rows with
  | nil => exact h
  | cons r rest ih => exact ih (insertOrIgnore rows r) (keyMem_insertOrIgnore_mono rows r x h)

theorem keyMem_foldl_self (l : List DayItemRow) (rows : List DayItemRow) :
    ∀ r ∈ l, keyMem (l.foldl insertOrIgnore rows) r = true := by
  induction l generalizing rows with
  | nil => intro r hr; cases hr
  | cons a rest ih =>
    intro r hr
    rcases List.mem_cons.mp hr with h | h
    · subst h
      exact keyMem_foldl_mono rest (insertOrIgnore rows r) r
        (keyMem_insertOrIgnore_self rows r)
    · exact ih (insertOrIgnore rows a) r h

theorem foldl_insertOrIgnore_of_keyMem (l : List DayItemRow) (rows : List DayItemRow)
    (h : ∀ r ∈ l, keyMem rows r = true) : l.foldl insertOrIgnore rows = rows := by
  induction l with
  | nil => rfl
  | cons a rest ih =>
    have ha : insertOrIgnore rows a = rows := by
      unfold insertOrIgnore
      rw [if_pos (h a (List.mem_cons_self a rest))]
    show rest.foldl insertOrIgnore (insertOrIgnore rows a) = rows
    rw [ha]
    exact ih (fun r hr => h r (List.mem_cons_of_mem a hr))

theorem mem_foldl_insertOrIgnore (l : List DayItemRow) (rows : List DayItemRow)
    (x : DayItemRow) (h : x ∈ l.foldl insertOrIgnore rows) : x ∈ rows ∨ x ∈ l := by
  induction l generalizing rows with
  | nil => exact Or.inl h
  | cons a rest ih =>
    rcases ih (insertOrIgnore rows a) h with h2 | h2
    · unfold insertOrIgnore at h2
      by_cases hk : keyMem rows a = true
      · rw [if_pos hk] at h2; exact Or.inl h2
      · rw [if_neg hk] at h2
        rcases List.mem_append.mp h2 with h3 | h3
        · exact Or.inl h3
        · right; simp at h3; simp [h3]
    · exact Or.inr (List.mem_cons_of_mem a h2)

/-- When none of the inserted rows' keys collide — with the existing rows or
with each other — `INSERT OR IGNORE` inserts everything, in order. -/
theorem foldl_insertOrIgnore_append (l : List DayItemRow) (rows : List DayItemRow)
    (hdisj : ∀ r ∈ l, keyMem rows r = false)
    (hnd : l.Pairwise (fun a b => ¬(a.day = b.day ∧ a.item_id = b.item_id))) :
    l.foldl insertOrIgnore rows = rows ++ l := by
  induction l generalizing rows with
  | nil => simp
  | cons a rest ih =>
    have ha : insertOrIgnore rows a = rows ++ [a] := by
      unfold insertOrIgnore
      rw [if_neg (by simp [hdisj a (List.mem_cons_self a rest)])]
    show rest.foldl insertOrIgnore (insertOrIgnore rows a) = rows ++ a :: rest
    rw [ha]
    have hpair := List.pairwise_cons.mp hnd
    have hdisj2 : ∀ r ∈ rest, keyMem (rows ++ [a]) r = false := by
      intro r hr
      unfold keyMem
      rw [List.any_append]
      have h1 : keyMem rows r = false := hdisj r (List.mem_cons_of_mem a hr)
      unfold keyMem at h1
      rw [h1]
      have h2 : ¬(a.day = r.day ∧ a.item_id = r.item_id) := hpair.1 r hr
      simp only [List.any_cons, List.any_nil, Bool.or_false, Bool.false_or]
      by_cases hd : a.day = r.day
      · by_cases hi : a.item_id = r.item_id
        · exact absurd ⟨hd, hi⟩ h2
        · simp [hi]
      · simp [hd]
    rw [ih (rows ++ [a]) hdisj2 hpair.2]
    simp

/-! ### Helper lemmas: `day_status` upsert -/

theorem find?_map_update (rows : List DayStatusRow) (nr : DayStatusRow)
    (h : rows.any (fun r => decide (r.day = nr.day)) = true) :
    (rows.map (fun r => if r.day = nr.day then nr else r)).find?
      (fun r => decide (r.day = nr.day)) = some nr := by
  induction rows with
  | nil => simp at h
  | cons x t ih =>
    by_cases hx : x.day = nr.day
    · rw [List.map_cons, if_pos hx]
      exact List.find?_cons_of_pos _ (by simp)
    · have ht : t.any (fun r => decide (r.day = nr.day)) = true := by
        simpa [List.any_cons, hx] using h
      rw [List.map_cons, if_neg hx]
      rw [List.find?_cons_of_neg _ (by simp [hx])]
      exact ih ht

theorem find?_append_single (rows : List DayStatusRow) (nr : DayStatusRow)
    (h : rows.any (fun r => decide (r.day = nr.day)) = false) :
    (rows ++ [nr]).find? (fun r => decide (r.day = nr.day)) = some nr := by
  induction rows with
  | nil => exact List.find?_cons_of_pos _ (by simp)
  | cons x t ih =>
    have hx : ¬ x.day = nr.day := by
      intro hc
      simp [List.any_cons, hc] at h
    have ht : t.any (fun r => decide (r.day = nr.day)) = false := by
      rcases Bool.eq_false_iff.mp h with _
      by_cases hb : t.any (fun r => decide (r.day = nr.day)) = true
      · simp [List.any_cons, hb] at h
      · exact Bool.eq_false_iff.mpr hb
    rw [List.cons_append, List.find?_cons_of_neg _ (by simp [hx])]
    exact ih ht

theorem find?_upsert (rows : List DayStatusRow) (d : String) (nr : DayStatusRow)
    (hd : nr.day = d) :
    (upsertStatus rows nr).find? (fun r => decide (r.day = d)) = some nr := by
  subst hd
  unfold upsertStatus
  by_cases h : rows.any (fun r => decide (r.day = nr.day)) = true
  · rw [if_pos h]; exact find?_map_update rows nr h
  · rw [if_neg h]; exact find?_append_single rows nr (Bool.eq_false_iff.mpr h)

theorem is_day_closed_set_day_closed (s : State) (day : String) (c : Bool) (now : String) :
    is_day_closed (set_day_closed s day c now) day = c := by
  cases c with
  | false =>
    have hfind := find?_upsert s.day_status day ⟨day, false, none⟩ rfl
    show (match (upsertStatus s.day_status ⟨day, false, none⟩).find?
        (fun r => decide (r.day = day)) with
      | some r => r.closed
      | none => false) = false
    rw [hfind]
  | true =>
    have hfind := find?_upsert s.day_status day ⟨day, true, some now⟩ rfl
    show (match (upsertStatus s.day_status ⟨day, true, some now⟩).find?
        (fun r => decide (r.day = day)) with
      | some r => r.closed
      | none => false) = true
    rw [hfind]

theorem day_item_set_day_closed (s : State) (day : String) (c : Bool) (now : String) :
    (set_day_closed s day c now).day_item = s.day_item := rfl

/-! ### Helper lemmas: `flatten` -/

theorem flattenSubs_eq (item : TItem) (base_id : String) (subs : List SubItem)
    (h : ∀ sub ∈ subs, sub.id.isSome = true) :
    ∀ flat, flattenSubs item base_id subs flat
      = flat ++ subs.map (fun sub =>
          { item_id := base_id ++ ":" ++ sub.id.getD "",
            item_text := sub.text.getD (base_id ++ ":" ++ sub.id.getD ""),
            importance := sub.importance.getD (item.importance.getD 1) }) := by
  induction subs with
  | nil => intro flat; simp [flattenSubs]
  | cons sub rest ih =>
    intro flat
    obtain ⟨sid, hsid⟩ :=
      Option.isSome_iff_exists.mp (h sub (List.mem_cons_self sub rest))
    have hline : subLine item base_id flat.length sub
        = { item_id := base_id ++ ":" ++ sub.id.getD "",
            item_text := sub.text.getD (base_id ++ ":" ++ sub.id.getD ""),
            importance := sub.importance.getD (item.importance.getD 1) } := by
      unfold subLine
      rw [hsid]
      rfl
    show flattenSubs item base_id rest (flat ++ [subLine item base_id flat.length sub])
      = flat ++ _
    rw [ih (fun s hs => h s (List.mem_cons_of_mem sub hs)), hline]
    simp

theorem flattenAux_eq (t : List TItem) (h : subIdsPresent t = true) :
    ∀ flat, flattenAux t flat = flat ++ t.flatMap (fun item =>
      topLine item :: (item.subitems.getD []).map (fun sub =>
        { item_id := pyStrOfOptId item.id ++ ":" ++ sub.id.getD "",
          item_text := sub.text.getD (pyStrOfOptId item.id ++ ":" ++ sub.id.getD ""),
          importance := sub.importance.getD (item.importance.getD 1) })) := by
  induction t with
  | nil => intro flat; simp [flattenAux]
  | cons item rest ih =>
    intro flat
    have hall := List.all_eq_true.mp h
    have hitem : ∀ sub ∈ item.subitems.getD [], sub.id.isSome = true := by
      intro sub hsub
      exact List.all_eq_true.mp (hall item (List.mem_cons_self item rest)) sub hsub
    have hrest : subIdsPresent rest = true :=
      List.all_eq_true.mpr (fun x hx => hall x (List.mem_cons_of_mem item hx))
    show flattenAux rest
        (flattenSubs item (pyStrOfOptId item.id) (item.subitems.getD [])
          (flat ++ [topLine item])) = _
    rw [flattenSubs_eq item (pyStrOfOptId item.id) (item.subitems.getD []) hitem,
      ih hrest]
    simp

/-! ### Claim theorems -/

/-- C8: `flatten` is a pure function of its input; when every sub-item
carries its own id, the output lists each top-level item in template order
immediately followed by that item's sub-items in their own order, a
sub-item's `item_id` is `"<parent_id>:<sub_id>"`, and a sub-item whose
`importance` is absent inherits the parent's effective importance
(`item.importance`, defaulted to 1 — the same value `topLine` assigns the
parent). -/
theorem C8_flatten_order_ids_inheritance (t : List TItem) (h : subIdsPresent t = true) :
    flatten t = t.flatMap (fun item =>
      topLine item :: (item.subitems.getD []).map (fun sub =>
        { item_id := pyStrOfOptId item.id ++ ":" ++ sub.id.getD "",
          item_text := sub.text.getD (pyStrOfOptId item.id ++ ":" ++ sub.id.getD ""),
          importance := sub.importance.getD (item.importance.getD 1) })) := by
  unfold flatten
  rw [flattenAux_eq t h]
  rfl

/-- C8 witness: the spec's scenario template flattens to the two lines
`"a"` and `"a:1"`. -/
theorem C8_witness :
    subIdsPresent exTemplate = true ∧
    (flatten exTemplate).map FlatLine.item_id = ["a", "a:1"] ∧
    flatten exTemplate = exTemplate.flatMap (fun item =>
      topLine item :: (item.subitems.getD []).map (fun sub =>
        { item_id := pyStrOfOptId item.id ++ ":" ++ sub.id.getD "",
          item_text := sub.text.getD (pyStrOfOptId item.id ++ ":" ++ sub.id.getD ""),
          importance := sub.importance.getD (item.importance.getD 1) })) :=
  ⟨by decide, by decide, C8_flatten_order_ids_inheritance exTemplate (by decide)⟩

/-- C7: `load` is total in the embedding (the Python body catches every
parse failure), returns the stored list whenever the template row parses to
a JSON list, and falls back to the built-in default — three items with
importances 3, 2, 2 and no sub-items — when no row exists or the stored
data is malformed. -/
theorem C7_load_never_raises (s : State) :
    (∀ d, s.template = TemplateCell.stored d → template_load s = d) ∧
    (s.template = TemplateCell.noRow ∨ s.template = TemplateCell.badData →
      template_load s = DEFAULT_TEMPLATE) ∧
    DEFAULT_TEMPLATE.map (fun item => (item.id, item.importance, item.subitems))
      = [(some "progress", some 3, some []),
         (some "care", some 2, some []),
         (some "maintenance", some 2, some [])] := by
  refine ⟨?_, ?_, by decide⟩
  · intro d hd
    unfold template_load
    rw [hd]
  · rintro (hd | hd) <;> (unfold template_load; rw [hd])

/-- C7 witness: a stored list is returned as-is; an absent row yields the
default. -/
theorem C7_witness :
    template_load storedOneState = [itemA] ∧
    template_load noRowState = DEFAULT_TEMPLATE :=
  ⟨(C7_load_never_raises storedOneState).1 [itemA] rfl,
   (C7_load_never_raises noRowState).2.1 (Or.inl rfl)⟩

/-- C10: when the `template` table has no row, a well-formed `save` succeeds
(the `UPDATE ... WHERE id = 1` matches nothing) yet persists nothing, and a
subsequent `load` returns the built-in default. -/
theorem C10_save_without_row (s : State) (X : List TItem)
    (hnorow : s.template = TemplateCell.noRow) (hwf : validateOk X = true) :
    save_template s X = Except.ok s ∧ load_template s = DEFAULT_TEMPLATE := by
  constructor
  · unfold save_template template_save
    rw [if_pos hwf, hnorow]
  · unfold load_template template_load
    rw [hnorow]

/-- C10 witness at a concrete well-formed template and an empty store. -/
theorem C10_witness :
    validateOk [itemA] = true ∧
    save_template noRowState [itemA] = Except.ok noRowState ∧
    load_template noRowState = DEFAULT_TEMPLATE :=
  ⟨by decide,
   (C10_save_without_row noRowState [itemA] rfl (by decide)).1,
   (C10_save_without_row noRowState [itemA] rfl (by decide)).2⟩

theorem startup_template_ne_noRow (s : State) :
    (startup s).template ≠ TemplateCell.noRow := by
  unfold startup ensure_default
  cases hs : s.template with
  | noRow => intro hc; cases hc
  | badData => rw [hs]; intro hc; cases hc
  | stored d => rw [hs]; intro hc; cases hc

/-- C4: after `initialize()`, `save(X)` for a well-formed `X` (every element
has `id` and `text`) followed by `load()` returns `X` with `importance = 1`
and `subitems = []` filled into each element where those keys were
absent. -/
theorem C4_save_load_roundtrip (s : State) (X : List TItem)
    (hwf : validateOk X = true) :
    ∃ s2, save_template (startup s) X = Except.ok s2 ∧
      load_template s2 = X.map fillDefaults := by
  have hne := startup_template_ne_noRow s
  unfold save_template template_save
  rw [if_pos hwf]
  cases hs : (startup s).template with
  | noRow => exact absurd hs hne
  | badData => exact ⟨_, rfl, rfl⟩
  | stored d => exact ⟨_, rfl, rfl⟩

/-- C4 witness: saving `[{"id":"a","text":"A"}]` after startup and loading
returns the item with `importance = 1` and `subitems = []` filled. -/
theorem C4_witness :
    validateOk [itemA] = true ∧
    ∃ s2, save_template (startup noRowState) [itemA] = Except.ok s2 ∧
      load_template s2 = [itemA].map fillDefaults :=
  ⟨by decide, C4_save_load_roundtrip noRowState [itemA] (by decide)⟩

/-- C1 counterexample: on an instantiated day with no row for the item id
`"no-such-item"`, `setChecked` with valid evidence on an open day does not
fail at all — it returns successfully (the claim says it fails with
`NotFoundError`; the code raises no such error anywhere). -/
theorem C1_counterexample :
    set_item_checked day1State "2024-01-01" "no-such-item" true "some evidence" ""
      "2024-01-01T10:00:00" = Except.ok day1State := by decide

/-- C1 (amended): when no `(day, item_id)` row exists and the call passes
the evidence and closed-day checks, `setChecked` succeeds and leaves the
store completely unchanged — the keyed `UPDATE` matches zero rows and no
error is raised. -/
theorem C1_missing_row_noop (s : State) (day item_id : String) (checked : Bool)
    (evidence why now : String)
    (hnorow : ∀ r ∈ s.day_item, ¬(r.day = day ∧ r.item_id = item_id))
    (hev : checked = true → pyStrip evidence ≠ "")
    (hopen : is_day_closed s day = false) :
    set_item_checked s day item_id checked evidence why now = Except.ok s := by
  unfold set_item_checked
  rw [if_neg (by rintro ⟨hc, hb⟩; exact hev hc hb), if_neg (by simp [hopen])]
  have hmap : s.day_item.map (fun r =>
      if r.day = day ∧ r.item_id = item_id then
        { r with
          checked := checked,
          evidence := pyStrip evidence,
          why := pyStrip why,
          checked_at := if checked then some now else none }
      else r) = s.day_item := by
    have := List.map_congr_left (l := s.day_item)
      (g := id)
      (f := fun r =>
        if r.day = day ∧ r.item_id = item_id then
          { r with
            checked := checked,
            evidence := pyStrip evidence,
            why := pyStrip why,
            checked_at := if checked then some now else none }
        else r)
      (fun r hr => if_neg (hnorow r hr))
    rw [this, List.map_id]
  rw [hmap]

/-- C1 witness: concrete instance of the amended statement. -/
theorem C1_witness :
    (∀ r ∈ day1State.day_item, ¬(r.day = "2024-01-01" ∧ r.item_id = "nope")) ∧
    set_item_checked day1State "2024-01-01" "nope" true "ev" "w" "t"
      = Except.ok day1State :=
  ⟨by decide,
   C1_missing_row_noop day1State "2024-01-01" "nope" true "ev" "w" "t"
     (by decide) (by decide) (by decide)⟩

/-- C9: on a closed day with an existing item, `setChecked(…, true, blank
evidence)` fails with the missing-evidence `ValueError`, not the closed-day
one — the evidence check runs before the closed-day lookup — and every
failing call (blank evidence, or any call on the closed day) leaves the
store unchanged. -/
theorem C9_evidence_before_closed (s : State) (day item_id : String)
    (evidence why now : String)
    (hclosed : is_day_closed s day = true)
    (_hexists : ∃ r ∈ s.day_item, r.day = day ∧ r.item_id = item_id)
    (hblank : pyStrip evidence = "") :
    set_item_checked s day item_id true evidence why now
      = Except.error evidenceRequiredError ∧
    evidenceRequiredError ≠ dayClosedError ∧
    stateAfter s (set_item_checked s day item_id true evidence why now) = s ∧
    ∀ c e2 w2 n2, (c = true → pyStrip e2 ≠ "") →
      set_item_checked s day item_id c e2 w2 n2 = Except.error dayClosedError ∧
      stateAfter s (set_item_checked s day item_id c e2 w2 n2) = s := by
  have h1 : set_item_checked s day item_id true evidence why now
      = Except.error evidenceRequiredError := by
    unfold set_item_checked
    rw [if_pos ⟨rfl, hblank⟩]
  refine ⟨h1, by decide, by rw [h1]; rfl, ?_⟩
  intro c e2 w2 n2 he2
  have h2 : set_item_checked s day item_id c e2 w2 n2
      = Except.error dayClosedError := by
    unfold set_item_checked
    rw [if_neg (by rintro ⟨hc, hb⟩; exact he2 hc hb), if_pos hclosed]
  exact ⟨h2, by rw [h2]; rfl⟩

/-- C9 witness: the closed day `2024-01-01` with the existing item
`progress` and whitespace-only evidence. -/
theorem C9_witness :
    is_day_closed closedState "2024-01-01" = true ∧
    (∃ r ∈ closedState.day_item, r.day = "2024-01-01" ∧ r.item_id = "progress") ∧
    pyStrip "   " = "" ∧
    set_item_checked closedState "2024-01-01" "progress" true "   " "" "t"
      = Except.error evidenceRequiredError :=
  ⟨by decide, by decide, by decide,
   (C9_evidence_before_closed closedState "2024-01-01" "progress" "   " "" "t"
     (by decide) (by decide) (by decide)).1⟩

theorem state_eq (a b : State) (ht : a.template = b.template)
    (hd : a.day_item = b.day_item) (hs : a.day_status = b.day_status) : a = b := by
  cases a; cases b
  cases ht; cases hd; cases hs
  rfl

theorem instantiate_of_any (s : State) (day : String)
    (h : s.day_item.any (fun r => decide (r.day = day)) = true) :
    instantiate_day_if_needed s day = s := by
  unfold instantiate_day_if_needed
  rw [if_pos h]

theorem instantiate_template (s : State) (day : String) :
    (instantiate_day_if_needed s day).template = s.template := by
  unfold instantiate_day_if_needed
  by_cases h : s.day_item.any (fun r => decide (r.day = day)) = true
  · rw [if_pos h]
  · rw [if_neg h]

theorem instantiate_day_status (s : State) (day : String) :
    (instantiate_day_if_needed s day).day_status = s.day_status := by
  unfold instantiate_day_if_needed
  by_cases h : s.day_item.any (fun r => decide (r.day = day)) = true
  · rw [if_pos h]
  · rw [if_neg h]

theorem instantiate_day_item_of_not_any (s : State) (day : String)
    (h : ¬ s.day_item.any (fun r => decide (r.day = day)) = true) :
    (instantiate_day_if_needed s day).day_item
      = ((flatten (template_load s)).map (rowOfLine day)).foldl insertOrIgnore
          s.day_item := by
  unfold instantiate_day_if_needed
  rw [if_neg h]

theorem instantiate_idem (s : State) (day : String) :
    instantiate_day_if_needed (instantiate_day_if_needed s day) day
      = instantiate_day_if_needed s day := by
  by_cases h : s.day_item.any (fun r => decide (r.day = day)) = true
  · rw [instantiate_of_any s day h]
    exact instantiate_of_any s day h
  · by_cases h2 : (instantiate_day_if_needed s day).day_item.any
        (fun r => decide (r.day = day)) = true
    · exact instantiate_of_any _ day h2
    · apply state_eq
      · rw [instantiate_template, instantiate_template]
      · rw [instantiate_day_item_of_not_any _ day h2]
        have hti : template_load (instantiate_day_if_needed s day) = template_load s := by
          unfold template_load
          rw [instantiate_template]
        rw [hti, instantiate_day_item_of_not_any s day h]
        exact foldl_insertOrIgnore_of_keyMem _ _
          (keyMem_foldl_self ((flatten (template_load s)).map (rowOfLine day)) s.day_item)
      · rw [instantiate_day_status, instantiate_day_status]

/-- C5: `instantiateIfNeeded(D)` is idempotent — an immediately repeated
call changes nothing — and so is the state effect of `getItems(D)`. -/
theorem C5_instantiate_idempotent (s : State) (day : String) :
    instantiate_day_if_needed (instantiate_day_if_needed s day) day
      = instantiate_day_if_needed s day ∧
    (get_day_items (get_day_items s day).2 day).2 = (get_day_items s day).2 :=
  ⟨instantiate_idem s day, instantiate_idem s day⟩

/-- C3 counterexample: on a closed instantiated day, the `markItem` call
with `checked = true` and blank evidence fails with the missing-evidence
error, not `DayClosedError` — so not every `markItem` call on a closed day
fails with `DayClosedError`. -/
theorem C3_counterexample :
    mark_item closedState "2024-01-01" "progress" true "   " "" "t2"
      = Except.error evidenceRequiredError ∧
    mark_item closedState "2024-01-01" "progress" true "   " "" "t2"
      ≠ Except.error dayClosedError := by
  constructor
  · decide
  · decide

/-- C3 (amended): after `closeDay(D)`, every `markItem` call that passes the
evidence validation (`checked = false`, or non-blank evidence) fails with
`DayClosedError`; after a subsequent `reopenDay(D)`, the same call with
`checked = true`, non-blank evidence and an existing `(D, I)` row succeeds
and updates that row. -/
theorem C3_closed_then_reopen (s : State) (day item_id : String) (c : Bool)
    (evidence why now1 now2 : String)
    (hev : c = true → pyStrip evidence ≠ "") :
    mark_item (close_day s day now1) day item_id c evidence why now2
      = Except.error dayClosedError ∧
    (pyStrip evidence ≠ "" →
      (∃ r ∈ s.day_item, r.day = day ∧ r.item_id = item_id) →
      ∃ s3, mark_item (reopen_day (close_day s day now1) day) day item_id true
          evidence why now2 = Except.ok s3 ∧
        ∃ r ∈ s3.day_item, r.day = day ∧ r.item_id = item_id ∧ r.checked = true ∧
          r.evidence = pyStrip evidence ∧ r.why = pyStrip why ∧
          r.checked_at = some now2) := by
  have hcl : is_day_closed (close_day s day now1) day = true :=
    is_day_closed_set_day_closed s day true now1
  constructor
  · unfold mark_item set_item_checked
    rw [if_neg (by rintro ⟨hc, hb⟩; exact hev hc hb), if_pos hcl]
  · intro hev2 hex
    obtain ⟨r, hr, hrday, hrid⟩ := hex
    have hopen : is_day_closed (reopen_day (close_day s day now1) day) day = false :=
      is_day_closed_set_day_closed (close_day s day now1) day false ""
    unfold mark_item set_item_checked
    rw [if_neg (by rintro ⟨_, hb⟩; exact hev2 hb), if_neg (by simp [hopen])]
    refine ⟨_, rfl, ?_⟩
    refine ⟨{ r with
        checked := true,
        evidence := pyStrip evidence,
        why := pyStrip why,
        checked_at := some now2 }, ?_, hrday, hrid, rfl, rfl, rfl, rfl⟩
    apply List.mem_map.mpr
    refine ⟨r, hr, ?_⟩
    rw [if_pos ⟨hrday, hrid⟩]
    rfl

/-- C3 witness: concrete closed and reopened day with the `progress`
item. -/
theorem C3_witness :
    (true = true → pyStrip "did it" ≠ "") ∧
    pyStrip "did it" ≠ "" ∧
    (∃ r ∈ day1State.day_item, r.day = "2024-01-01" ∧ r.item_id = "progress") ∧
    mark_item (close_day day1State "2024-01-01" "t1") "2024-01-01" "progress" true
      "did it" "why" "t2" = Except.error dayClosedError ∧
    ∃ s3, mark_item (reopen_day (close_day day1State "2024-01-01" "t1") "2024-01-01")
        "2024-01-01" "progress" true "did it" "why" "t2" = Except.ok s3 ∧
      ∃ r ∈ s3.day_item, r.day = "2024-01-01" ∧ r.item_id = "progress" ∧
        r.checked = true ∧ r.evidence = pyStrip "did it" ∧ r.why = pyStrip "why" ∧
        r.checked_at = some "t2" :=
  ⟨by decide, by decide, by decide,
   (C3_closed_then_reopen day1State "2024-01-01" "progress" true "did it" "why"
     "t1" "t2" (by decide)).1,
   (C3_closed_then_reopen day1State "2024-01-01" "progress" true "did it" "why"
     "t1" "t2" (by decide)).2 (by decide) (by decide)⟩

theorem rowInvariant_rowOfLine (day : String) (l : FlatLine) :
    rowInvariant (rowOfLine day l) := by
  constructor
  · intro hc; cases hc
  · intro _; rfl

/-- C6: the DayItem invariant — `checked = true` implies trimmed evidence is
non-empty and `checked_at` is set, `checked = false` implies `checked_at` is
null — holds of every row after any operation of the service surface,
whenever it held before. -/
theorem C6_invariant_preserved (s : State) (h : stateInvariant s) :
    (∀ day, stateInvariant (instantiate_day_if_needed s day)) ∧
    (∀ day item_id c evidence why now s2,
      set_item_checked s day item_id c evidence why now = Except.ok s2 →
      stateInvariant s2) ∧
    (∀ day c now, stateInvariant (set_day_closed s day c now)) ∧
    stateInvariant (startup s) ∧
    (∀ X s2, save_template s X = Except.ok s2 → stateInvariant s2) ∧
    (∀ day, stateInvariant (get_day s day).2) := by
  have hinst : ∀ day, stateInvariant (instantiate_day_if_needed s day) := by
    intro day
    by_cases hany : s.day_item.any (fun r => decide (r.day = day)) = true
    · rw [instantiate_of_any s day hany]
      exact h
    · intro r hr
      rw [instantiate_day_item_of_not_any s day hany] at hr
      rcases mem_foldl_insertOrIgnore _ _ _ hr with h2 | h2
      · exact h r h2
      · obtain ⟨l, _, hl⟩ := List.mem_map.mp h2
        rw [← hl]
        exact rowInvariant_rowOfLine day l
  refine ⟨hinst, ?_, ?_, ?_, ?_, fun day => hinst day⟩
  · intro day item_id c evidence why now s2 heq
    unfold set_item_checked at heq
    split_ifs at heq with h1 h2 h3
    · cases heq
      intro r hr
      obtain ⟨r0, hr0, hup⟩ := List.mem_map.mp hr
      by_cases hkey : r0.day = day ∧ r0.item_id = item_id
      · rw [if_pos hkey] at hup
        rw [← hup]
        constructor
        · intro _
          constructor
          · rw [pyStrip_idem]
            intro hb
            exact h1 ⟨h3, hb⟩
          · rfl
        · intro hc
          rw [h3] at hc
          cases hc
      · rw [if_neg hkey] at hup
        rw [← hup]
        exact h r0 hr0
    · have hcf : c = false := Bool.eq_false_iff.mpr h3
      cases heq
      intro r hr
      obtain ⟨r0, hr0, hup⟩ := List.mem_map.mp hr
      by_cases hkey : r0.day = day ∧ r0.item_id = item_id
      · rw [if_pos hkey] at hup
        rw [← hup]
        constructor
        · intro hc
          rw [hcf] at hc
          cases hc
        · intro _; rfl
      · rw [if_neg hkey] at hup
        rw [← hup]
        exact h r0 hr0
  · intro day c now r hr
    rw [day_item_set_day_closed] at hr
    exact h r hr
  · unfold startup ensure_default
    cases hs : s.template
    · exact h
    · exact h
    · exact h
  · intro X s2 heq
    unfold save_template template_save at heq
    split_ifs at heq with h1
    cases hs : s.template with
    | noRow => rw [hs] at heq; cases heq; exact h
    | badData => rw [hs] at heq; cases heq; exact h
    | stored d => rw [hs] at heq; cases heq; exact h

/-- C6 witness: the invariant holds of the fresh store and is carried
through an instantiation. -/
theorem C6_witness :
    stateInvariant baseState ∧
    stateInvariant (instantiate_day_if_needed baseState "2024-01-01") :=
  ⟨by decide, (C6_invariant_preserved baseState (by decide)).1 "2024-01-01"⟩

/-- C2 counterexample: `dupTemplate` passes validation (so it is a valid
template) yet flattens to two lines that share the item id `"a"`;
`INSERT OR IGNORE` keeps only the first, so `getDay` returns one row, not
`flatten(T)`'s two items. -/
theorem C2_counterexample :
    validateOk dupTemplate = true ∧
    (flatten dupTemplate).length = 2 ∧
    ((get_day (startup dupState) "2024-01-01").1.1).length = 1 :=
  ⟨by decide, by decide, by decide⟩

/-- C2 (amended): when the stored template's flattened item ids are pairwise
distinct, `getDay(D)` after `initialize()` on a fresh day returns exactly
`flatten(T)`'s items — as a permutation of the freshly instantiated rows,
each `checked = false` with empty evidence/why and null `checked_at` —
ordered by `item_id` lexicographically. -/
theorem C2_getDay_fresh (s : State) (T : List TItem) (day : String)
    (hT : s.template = TemplateCell.stored T)
    (_hvalid : validateOk T = true)
    (hnodup : (flatten T).Pairwise (fun a b => a.item_id ≠ b.item_id))
    (hfresh : ∀ r ∈ s.day_item, r.day ≠ day) :
    ((get_day (startup s) day).1.1).Perm ((flatten T).map (rowOfLine day)) ∧
    List.Pairwise (fun a b : DayItemRow => strLe a.item_id b.item_id = true)
      ((get_day (startup s) day).1.1) ∧
    ∀ r ∈ (get_day (startup s) day).1.1,
      r.checked = false ∧ r.evidence = "" ∧ r.why = "" ∧ r.checked_at = none := by
  have hstart : startup s = s := by
    unfold startup ensure_default
    rw [hT]
  rw [hstart]
  have htl : template_load s = T := by
    unfold template_load
    rw [hT]
  have hany : ¬ s.day_item.any (fun r => decide (r.day = day)) = true := by
    intro hc
    obtain ⟨r, hr, hp⟩ := List.any_eq_true.mp hc
    exact hfresh r hr (of_decide_eq_true hp)
  have hrows : (instantiate_day_if_needed s day).day_item
      = s.day_item ++ (flatten T).map (rowOfLine day) := by
    rw [instantiate_day_item_of_not_any s day hany, htl]
    apply foldl_insertOrIgnore_append
    · intro r hrmem
      obtain ⟨l, _, hl⟩ := List.mem_map.mp hrmem
      apply Bool.eq_false_iff.mpr
      intro hc
      obtain ⟨x, hx, hpx⟩ := List.any_eq_true.mp hc
      simp only [Bool.and_eq_true, decide_eq_true_eq] at hpx
      have hd : x.day = r.day := hpx.1
      rw [← hl] at hd
      exact hfresh x hx hd
    · exact List.Pairwise.map (rowOfLine day) (fun a b hab hc => hab hc.2) hnodup
  have hfilter : (instantiate_day_if_needed s day).day_item.filter
      (fun r => decide (r.day = day)) = (flatten T).map (rowOfLine day) := by
    rw [hrows, List.filter_append]
    have hf1 : s.day_item.filter (fun r => decide (r.day = day)) = [] :=
      List.filter_eq_nil_iff.mpr (fun r hr => by simp [hfresh r hr])
    have hf2 : ((flatten T).map (rowOfLine day)).filter (fun r => decide (r.day = day))
        = (flatten T).map (rowOfLine day) :=
      List.filter_eq_self.mpr (fun r hr => by
        obtain ⟨l, _, hl⟩ := List.mem_map.mp hr
        rw [← hl]
        simp [rowOfLine])
    rw [hf1, hf2, List.nil_append]
  have hres : (get_day s day).1.1
      = List.insertionSort (fun a b => strLe a.item_id b.item_id = true)
          ((flatten T).map (rowOfLine day)) := by
    show List.insertionSort (fun a b => strLe a.item_id b.item_id = true)
        ((instantiate_day_if_needed s day).day_item.filter
          (fun r => decide (r.day = day))) = _
    rw [hfilter]
  rw [hres]
  haveI htot : IsTotal DayItemRow (fun a b => strLe a.item_id b.item_id = true) :=
    ⟨fun a b => strLe_total a.item_id b.item_id⟩
  haveI htrans : IsTrans DayItemRow (fun a b => strLe a.item_id b.item_id = true) :=
    ⟨fun a b c hab hbc => strLe_trans a.item_id b.item_id c.item_id hab hbc⟩
  refine ⟨List.perm_insertionSort _ _, List.sorted_insertionSort _ _, ?_⟩
  intro r hr
  have hr2 : r ∈ (flatten T).map (rowOfLine day) :=
    (List.perm_insertionSort _ _).mem_iff.mp hr
  obtain ⟨l, _, hl⟩ := List.mem_map.mp hr2
  rw [← hl]
  exact ⟨rfl, rfl, rfl, rfl⟩

/-- C2 witness: the default template, fresh store, day `2024-01-01`. -/
theorem C2_witness :
    baseState.template = TemplateCell.stored DEFAULT_TEMPLATE ∧
    validateOk DEFAULT_TEMPLATE = true ∧
    (flatten DEFAULT_TEMPLATE).Pairwise (fun a b => a.item_id ≠ b.item_id) ∧
    (∀ r ∈ baseState.day_item, r.day ≠ "2024-01-01") ∧
    (((get_day (startup baseState) "2024-01-01").1.1).Perm
        ((flatten DEFAULT_TEMPLATE).map (rowOfLine "2024-01-01")) ∧
      List.Pairwise (fun a b : DayItemRow => strLe a.item_id b.item_id = true)
        ((get_day (startup baseState) "2024-01-01").1.1) ∧
      ∀ r ∈ (get_day (startup baseState) "2024-01-01").1.1,
        r.checked = false ∧ r.evidence = "" ∧ r.why = "" ∧ r.checked_at = none) :=
  ⟨rfl, by decide, by decide, by decide,
   C2_getDay_fresh baseState DEFAULT_TEMPLATE "2024-01-01" rfl (by decide)
     (by decide) (by decide)⟩

end Quota
